import Mathlib

/-!
Verification of the bootstrap / routing / static-serving core of
`src/attached_assets/main.py` (Flask application shell for the
"Islamic Studies" platform backend).

The Python module is shallowly embedded: an environment snapshot is a
partial map from variable names to string values (a present-but-empty
value is distinct from an absent one, as in POSIX), `os.getenv` with a
default is total lookup with fallback, the filesystem seen by
`os.path.exists` is a partial map from joined path strings to entry
kinds, and the request handler `serve` is a pure function from the
static-folder option, the filesystem and the request path to either a
response or a raised Python exception.
-/

/-- A process-environment snapshot: maps a variable name to its value.
`none` means the variable is absent; `some ""` means it is present with
an empty value (POSIX permits empty environment values). -/
def Env : Type := String → Option String

/-- `os.getenv(key, default)`: the value of `key` in the snapshot, or
`default` when `key` is absent.  A present-but-empty value is returned
as the empty string, not replaced by the default. -/
def osGetenv (env : Env) (key default : String) : String :=
  (env key).getD default

/-- Line 37: `app.config['SECRET_KEY'] = os.getenv('SECRET_KEY', 'a_very_secure_default_secret_key_for_dev_only')`. -/
def SECRET_KEY (env : Env) : String :=
  osGetenv env "SECRET_KEY" "a_very_secure_default_secret_key_for_dev_only"

/-- Line 42: `DB_USER = os.getenv('PGUSER', 'postgres')`. -/
def DB_USER (env : Env) : String :=
  osGetenv env "PGUSER" "postgres"

/-- Line 43: `DB_PASSWORD = os.getenv('PGPASSWORD', 'password')`. -/
def DB_PASSWORD (env : Env) : String :=
  osGetenv env "PGPASSWORD" "password"

/-- Line 44: `DB_HOST = os.getenv('PGHOST', 'localhost')`. -/
def DB_HOST (env : Env) : String :=
  osGetenv env "PGHOST" "localhost"

/-- Line 45: `DB_PORT = os.getenv('PGPORT', '5432')`.  The source keeps
the port as a string (the default is the string literal `'5432'`). -/
def DB_PORT (env : Env) : String :=
  osGetenv env "PGPORT" "5432"

/-- Line 46: `DB_NAME = os.getenv('PGDATABASE', 'islamic_studies_mvp')`. -/
def DB_NAME (env : Env) : String :=
  osGetenv env "PGDATABASE" "islamic_studies_mvp"

/-- Line 48: the f-string
`f"postgresql+psycopg2://{DB_USER}:{DB_PASSWORD}@{DB_HOST}:{DB_PORT}/{DB_NAME}"`. -/
def SQLALCHEMY_DATABASE_URI (env : Env) : String :=
  "postgresql+psycopg2://" ++ DB_USER env ++ ":" ++ DB_PASSWORD env ++ "@"
    ++ DB_HOST env ++ ":" ++ DB_PORT env ++ "/" ++ DB_NAME env

/-- The configuration the module resolves at startup: the secret value
and the connection descriptor (spec section 3, `ConnectionDescriptor`;
the source keeps every field, the port included, as a string). -/
structure ResolvedConfig where
  secret : String
  user : String
  password : String
  host : String
  port : String
  database : String
  uri : String
deriving DecidableEq

/-- A single `os.getenv(key, default)` call as a state-passing
operation on the environment snapshot: it returns the looked-up value
and the snapshot it leaves behind.  `os.getenv` only reads, so the
snapshot comes back unchanged. -/
def osGetenvRun (key default : String) (env : Env) : String × Env :=
  ((env key).getD default, env)

/-- The configuration-resolution block of the module (lines 37 and
42-48), run as a sequence of `os.getenv` reads threaded through the
environment snapshot; spec section 4.1 names it `resolve_config`.  It
returns the resolved configuration together with the environment
snapshot left after the run. -/
def resolve_config (env : Env) : ResolvedConfig × Env :=
  let r0 := osGetenvRun "SECRET_KEY" "a_very_secure_default_secret_key_for_dev_only" env
  let r1 := osGetenvRun "PGUSER" "postgres" r0.2
  let r2 := osGetenvRun "PGPASSWORD" "password" r1.2
  let r3 := osGetenvRun "PGHOST" "localhost" r2.2
  let r4 := osGetenvRun "PGPORT" "5432" r3.2
  let r5 := osGetenvRun "PGDATABASE" "islamic_studies_mvp" r4.2
  ({ secret := r0.1
     user := r1.1
     password := r2.1
     host := r3.1
     port := r4.1
     database := r5.1
     uri := "postgresql+psycopg2://" ++ r1.1 ++ ":" ++ r2.1 ++ "@"
       ++ r3.1 ++ ":" ++ r4.1 ++ "/" ++ r5.1 }, r5.2)

/-- The number a string of decimal digits denotes, read left to
right (used only to relate the port string the source keeps to the
numeric port of the spec's connection descriptor). -/
def decimalValue (s : String) : Nat :=
  s.data.foldl (fun n c => n * 10 + (c.toNat - 48)) 0

/-- The empty environment snapshot: every variable absent. -/
def emptyEnv : Env := fun _ => none

/-- An environment snapshot in which `SECRET_KEY` is present but holds
the empty string and every other variable is absent. -/
def envEmptySecret : Env :=
  fun k => if k = "SECRET_KEY" then some "" else none

/-- Kind of a filesystem entry; `os.path.exists` is true for both. -/
inductive EntryKind
  | file
  | directory
deriving DecidableEq

/-- The filesystem as seen through `os.path`: a partial map from an
absolute path string to the kind of entry living there. -/
def FileSystem : Type := String → Option EntryKind

/-- `os.path.exists(p)`: true when any entry — regular file or
directory — lives at `p`.  It does not distinguish the two kinds. -/
def osPathExists (fs : FileSystem) (p : String) : Bool :=
  (fs p).isSome

/-- Whether a path string is absolute (begins with a slash). -/
def isAbsolutePath (b : String) : Bool :=
  b.data.head? = some '/'

/-- `os.path.join(a, b)` for the POSIX flavour the module relies on:
an absolute second component replaces the first, otherwise the two are
joined with a single separator (the static root the module builds has
no trailing slash). -/
def osPathJoin (a b : String) : String :=
  if isAbsolutePath b then b else a ++ "/" ++ b

/-- An HTTP response the `serve` handler can produce. -/
inductive Response
  | sendFile (dir name : String)
  | text (body : String) (status : Nat)
  | json (body : String) (status : Nat)
deriving DecidableEq

/-- A Python exception the handler body can raise. -/
inductive PyExn
  | nameError (name : String)
deriving DecidableEq

deriving instance DecidableEq for Except

/-- The names bound at top level of `src/attached_assets/main.py`: the
imports of lines 2-29 (`sys`, `os`, `Flask`, `send_from_directory`,
`CORS`, `db`, the eleven model classes, the six blueprints) and the
module-level assignments and the handler definition.  Python resolves
a free name inside a function body at call time against these module
globals and then the builtins; `jsonify` is in neither (it is a Flask
helper that the module never imports), so evaluating it raises
`NameError`. -/
def mainModuleGlobals : List String :=
  ["sys", "os", "Flask", "send_from_directory", "CORS", "db",
   "User", "Class", "Enrollment", "Attendance", "MemorizationProgress",
   "Lesson", "Quiz", "Question", "QuizAttempt", "StudentAnswer", "Payment",
   "user_bp", "attendance_bp", "memorization_bp", "lesson_bp", "quiz_bp",
   "payment_bp", "app", "DB_USER", "DB_PASSWORD", "DB_HOST", "DB_PORT",
   "DB_NAME", "serve"]

/-- The catch-all handler `serve(path)` (lines 70-83), as a pure
function of the application's static-folder option, the filesystem and
the request path.  Mirrors the source line by line: a `None` static
folder returns the diagnostic 404; a non-empty path naming an existing
entry under the static root is served with `send_from_directory`;
otherwise an existing `index.html` is served; otherwise the body
evaluates the free name `jsonify`, which raises `NameError` because
the module never binds it. -/
def serve (static_folder : Option String) (fs : FileSystem) (path : String) :
    Except PyExn Response :=
  match static_folder with
  | none => Except.ok (Response.text "Static folder not configured" 404)
  | some static_folder_path =>
    if path ≠ "" ∧ osPathExists fs (osPathJoin static_folder_path path) then
      Except.ok (Response.sendFile static_folder_path path)
    else if osPathExists fs (osPathJoin static_folder_path "index.html") then
      Except.ok (Response.sendFile static_folder_path "index.html")
    else if "jsonify" ∈ mainModuleGlobals then
      Except.ok (Response.json "Welcome to the Islamic Studies Platform API" 200)
    else
      Except.error (PyExn.nameError "jsonify")

/-- The static root the module builds (line 31 joins the directory of
the file with `static`); the concrete value stands in for any root. -/
def staticRoot : String := "/app/src/static"

/-- A filesystem holding both `app.js` and `index.html` under the
static root. -/
def fsAppAndIndex : FileSystem := fun p =>
  if p = "/app/src/static/app.js" ∨ p = "/app/src/static/index.html" then
    some EntryKind.file
  else none

/-- A filesystem holding only `index.html` under the static root. -/
def fsIndexOnly : FileSystem := fun p =>
  if p = "/app/src/static/index.html" then some EntryKind.file else none

/-- The empty filesystem. -/
def fsEmpty : FileSystem := fun _ => none

/-- A filesystem holding a directory named `assets` under the static
root and nothing else. -/
def fsAssetsDir : FileSystem := fun p =>
  if p = "/app/src/static/assets" then some EntryKind.directory else none

/-- Lines 59-64: the `app.register_blueprint(bp, url_prefix=...)`
calls, in source order: each pair is the blueprint's name and the URL
mount point it is registered under. -/
def blueprintRegistrations : List (String × String) :=
  [("user_bp", "/api/users"),
   ("attendance_bp", "/api/attendance"),
   ("memorization_bp", "/api/memorization"),
   ("lesson_bp", "/api/lessons"),
   ("quiz_bp", "/api/quizzes"),
   ("payment_bp", "/api/payments")]

/-- The six registered API mount points, in registration order. -/
def apiMounts : List String := blueprintRegistrations.map Prod.snd

/-- Splits a character list at `/`, keeping the chunks between
separators (empty chunks included). -/
def splitSlashAux (cs : List Char) (cur : List Char) : List String :=
  match cs with
  | [] => [String.mk cur.reverse]
  | c :: rest =>
    if c = '/' then String.mk cur.reverse :: splitSlashAux rest []
    else splitSlashAux rest (c :: cur)

/-- The non-empty segments of a URL path: `/api/users/login` becomes
`[api, users, login]`. -/
def pathSegments (s : String) : List String :=
  (splitSlashAux s.data []).filter (fun t => t ≠ "")

/-- Where the application shell sends a request: to the handler group
mounted at some registered URL mount point, or to the catch-all
static-serving handler. -/
inductive Dispatch
  | handler (mount : String)
  | staticServe
deriving DecidableEq

/-- Modelled from the spec: the URL-map dispatch of the web framework
and the route tables of the six blueprint modules (`src/routes/*.py`)
are not under `src/`; per the spec, requests under a registered mount
point are routed to that handler group — registered mount points take
precedence as more specific matches — and every other path falls to
the catch-all static-serving handler.  A request path is matched
against each registered mount point segment-wise. -/
def dispatch (path : String) : Dispatch :=
  match apiMounts.find? (fun q => (pathSegments q).isPrefixOf (pathSegments path)) with
  | some q => Dispatch.handler q
  | none => Dispatch.staticServe

/-- The observable startup steps of the module, in the order its
top-level statements execute. -/
inductive StartupEvent
  | resolveConfiguration
  | initPersistence
  | createAllTables
  | registerBlueprint (mount : String)
  | acceptRequests
deriving DecidableEq

/-- Top-level execution of the module as a trace of startup steps:
configuration (lines 37-49), `db.init_app(app)` (line 52), then
`db.create_all()` inside an application context (lines 55-56), then
the six blueprint registrations (lines 59-64) and finally `app.run`
(line 86).  `db.create_all` talks to an external database and may
raise; the parameter says whether it succeeds.  When it raises, the
module's top-level execution aborts: the trace stops at the
`createAllTables` step and the returned flag is `false` — the process
never begins serving. -/
def moduleStartup (createAllSucceeds : Bool) : List StartupEvent × Bool :=
  let pre := [StartupEvent.resolveConfiguration, StartupEvent.initPersistence,
              StartupEvent.createAllTables]
  if createAllSucceeds then
    (pre ++ blueprintRegistrations.map (fun r => StartupEvent.registerBlueprint r.2)
         ++ [StartupEvent.acceptRequests], true)
  else
    (pre, false)

/-- C5: in any environment snapshot, each connection variable that is
absent resolves to its documented default: user `postgres`, password
`password`, host `localhost`, port `5432`, database
`islamic_studies_mvp`; in particular an absent `PGPORT` yields the
port string `"5432"`, which reads numerically as 5432. -/
theorem connection_defaults_of_absent (env : Env) :
    (env "PGUSER" = none → DB_USER env = "postgres") ∧
    (env "PGPASSWORD" = none → DB_PASSWORD env = "password") ∧
    (env "PGHOST" = none → DB_HOST env = "localhost") ∧
    (env "PGPORT" = none → DB_PORT env = "5432" ∧ decimalValue (DB_PORT env) = 5432) ∧
    (env "PGDATABASE" = none → DB_NAME env = "islamic_studies_mvp") := by
  refine ⟨fun h => ?_, fun h => ?_, fun h => ?_, fun h => ?_, fun h => ?_⟩ <;>
    simp [DB_USER, DB_PASSWORD, DB_HOST, DB_PORT, DB_NAME, osGetenv, h]
  decide

/-- Witness for C5: the defaults at the concrete all-absent snapshot. -/
theorem connection_defaults_of_absent_witness :
    DB_USER emptyEnv = "postgres" ∧
    DB_PASSWORD emptyEnv = "password" ∧
    DB_HOST emptyEnv = "localhost" ∧
    (DB_PORT emptyEnv = "5432" ∧ decimalValue (DB_PORT emptyEnv) = 5432) ∧
    DB_NAME emptyEnv = "islamic_studies_mvp" := by
  have h := connection_defaults_of_absent emptyEnv
  exact ⟨h.1 rfl, h.2.1 rfl, h.2.2.1 rfl, h.2.2.2.1 rfl, h.2.2.2.2 rfl⟩

/-- C8: configuration resolution is deterministic and idempotent: it
leaves the environment snapshot unchanged, and running it a second
time on the snapshot the first run leaves behind yields the identical
resolved configuration (secret value and connection descriptor). -/
theorem resolve_config_deterministic_idempotent (env : Env) :
    (resolve_config env).2 = env ∧
    (resolve_config (resolve_config env).2).1 = (resolve_config env).1 := by
  constructor <;> rfl

/-- C10 counterexample: in the environment snapshot where `SECRET_KEY`
is present with the empty value, the configured secret is the empty
string, so the configured secret is not non-empty in every
environment. -/
theorem secret_key_empty_env_counterexample :
    SECRET_KEY envEmptySecret = "" ∧ ¬ (∀ env : Env, SECRET_KEY env ≠ "") := by
  refine ⟨rfl, fun h => h envEmptySecret rfl⟩

/-- C10 (amended): if `SECRET_KEY` is absent from the environment, the
configured secret is the fixed string
`a_very_secure_default_secret_key_for_dev_only`, which is non-empty;
hence the secret is non-empty in every environment in which
`SECRET_KEY` is absent. -/
theorem secret_key_default_of_absent (env : Env)
    (h : env "SECRET_KEY" = none) :
    SECRET_KEY env = "a_very_secure_default_secret_key_for_dev_only" ∧
    SECRET_KEY env ≠ "" := by
  simp [SECRET_KEY, osGetenv, h]

/-- C1: at one static root the three tiers fire in their fixed order —
a request naming an existing entry is served directly even though
`index.html` also exists (tier 1 before tier 2); the same request with
the entry gone falls to `index.html` (tier 2); but with `index.html`
also gone the third tier does not return the default welcome payload:
evaluating the unimported name `jsonify` raises `NameError`, so the
claim's third tier fails on the code. -/
theorem serve_three_tier_order_and_third_tier_raises :
    serve (some staticRoot) fsAppAndIndex "app.js"
      = Except.ok (Response.sendFile staticRoot "app.js") ∧
    serve (some staticRoot) fsIndexOnly "app.js"
      = Except.ok (Response.sendFile staticRoot "index.html") ∧
    serve (some staticRoot) fsEmpty "app.js"
      = Except.error (PyExn.nameError "jsonify") := by
  refine ⟨?_, ?_, ?_⟩ <;> decide

/-- C2: for a request path matching no static file, with no
`index.html` under the static root, the handler does not return the
claimed welcome JSON with status 200 — `jsonify` is bound neither in
the module globals nor anywhere else, so the handler raises
`NameError` (which the framework surfaces as a 500), refuting the
claim on the code. -/
theorem serve_welcome_branch_raises_name_error :
    "jsonify" ∉ mainModuleGlobals ∧
    serve (some staticRoot) fsEmpty "dashboard/settings"
      = Except.error (PyExn.nameError "jsonify") ∧
    ∀ body, serve (some staticRoot) fsEmpty "dashboard/settings"
      ≠ Except.ok (Response.json body 200) := by
  refine ⟨by decide, by decide, fun body h => ?_⟩
  rw [show serve (some staticRoot) fsEmpty "dashboard/settings"
        = Except.error (PyExn.nameError "jsonify") from by decide] at h
  exact Except.noConfusion h

/-- C7: when the application's static folder is `None`, the handler
returns the diagnostic body `Static folder not configured` with HTTP
404 for every request path and every filesystem, and raises no
exception. -/
theorem serve_no_static_folder_404 (fs : FileSystem) (path : String) :
    serve none fs path = Except.ok (Response.text "Static folder not configured" 404) :=
  rfl

/-- C9: a non-empty request path naming an existing directory (not a
regular file) under the static root takes the direct file-serving
tier — `os.path.exists` does not distinguish directories from files —
and does so regardless of whether `index.html` exists. -/
theorem serve_directory_takes_direct_tier (fs : FileSystem)
    (static_folder_path path : String) (hne : path ≠ "")
    (hdir : fs (osPathJoin static_folder_path path) = some EntryKind.directory) :
    serve (some static_folder_path) fs path
      = Except.ok (Response.sendFile static_folder_path path) := by
  simp [serve, osPathExists, hdir, hne]

/-- Witness for C9: the directory `assets` under the concrete static
root is routed to the direct file-serving tier. -/
theorem serve_directory_takes_direct_tier_witness :
    serve (some staticRoot) fsAssetsDir "assets"
      = Except.ok (Response.sendFile staticRoot "assets") :=
  serve_directory_takes_direct_tier fsAssetsDir staticRoot "assets"
    (by decide) (by decide)

/-- C3: the module registers exactly six handler groups, each under
its fixed mount point from the spec's route table, and the six mount
points are pairwise non-overlapping: no registered mount point is a
textual prefix of another. -/
theorem blueprint_mounts_match_table_and_disjoint :
    blueprintRegistrations.length = 6 ∧
    apiMounts = ["/api/users", "/api/attendance", "/api/memorization",
                 "/api/lessons", "/api/quizzes", "/api/payments"] ∧
    (blueprintRegistrations.lookup "user_bp" = some "/api/users" ∧
     blueprintRegistrations.lookup "attendance_bp" = some "/api/attendance" ∧
     blueprintRegistrations.lookup "memorization_bp" = some "/api/memorization" ∧
     blueprintRegistrations.lookup "lesson_bp" = some "/api/lessons" ∧
     blueprintRegistrations.lookup "quiz_bp" = some "/api/quizzes" ∧
     blueprintRegistrations.lookup "payment_bp" = some "/api/payments") ∧
    List.Pairwise (fun p q : String =>
      ¬ (p.data <+: q.data) ∧ ¬ (q.data <+: p.data)) apiMounts := by
  decide

/-- A registered mount point matches no earlier registered mount
point's segments: two distinct segment lists of equal length cannot
both be prefixes of one request path. -/
theorem segs_isPrefixOf_eq_false_of_other {l p q : List String}
    (hp : p <+: l) (hlen : q.length = p.length) (hne : q ≠ p) :
    q.isPrefixOf l = false := by
  by_contra hq
  rw [Bool.not_eq_false, List.isPrefixOf_iff_prefix] at hq
  exact hne ((List.prefix_of_prefix_length_le hq hp (le_of_eq hlen)).eq_of_length hlen)

/-- C4: every request whose path lies under one of the six registered
API mount points is dispatched to the handler group mounted there and
never reaches the static-serving catch-all. -/
theorem api_mount_dispatch_never_static (p path : String)
    (hp : p ∈ apiMounts)
    (hpre : pathSegments p <+: pathSegments path) :
    dispatch path = Dispatch.handler p ∧ dispatch path ≠ Dispatch.staticServe := by
  have hmount : dispatch path = Dispatch.handler p := by
    simp only [apiMounts, blueprintRegistrations, List.map, List.mem_cons,
      List.not_mem_nil, or_false] at hp
    have hpos : (pathSegments p).isPrefixOf (pathSegments path) = true := by
      rw [ List.isPrefixOf_iff_prefix]
      exact hpre
    rcases hp with rfl | rfl | rfl | rfl | rfl | rfl
    · simp [dispatch, apiMounts, blueprintRegistrations, List.find?, hpos]
    · have h1 := segs_isPrefixOf_eq_false_of_other hpre
        (q := pathSegments "/api/users") (by decide) (by decide)
      simp [dispatch, apiMounts, blueprintRegistrations, List.find?, h1, hpos]
    · have h1 := segs_isPrefixOf_eq_false_of_other hpre
        (q := pathSegments "/api/users") (by decide) (by decide)
      have h2 := segs_isPrefixOf_eq_false_of_other hpre
        (q := pathSegments "/api/attendance") (by decide) (by decide)
      simp [dispatch, apiMounts, blueprintRegistrations, List.find?, h1, h2, hpos]
    · have h1 := segs_isPrefixOf_eq_false_of_other hpre
        (q := pathSegments "/api/users") (by decide) (by decide)
      have h2 := segs_isPrefixOf_eq_false_of_other hpre
        (q := pathSegments "/api/attendance") (by decide) (by decide)
      have h3 := segs_isPrefixOf_eq_false_of_other hpre
        (q := pathSegments "/api/memorization") (by decide) (by decide)
      simp [dispatch, apiMounts, blueprintRegistrations, List.find?, h1, h2, h3, hpos]
    · have h1 := segs_isPrefixOf_eq_false_of_other hpre
        (q := pathSegments "/api/users") (by decide) (by decide)
      have h2 := segs_isPrefixOf_eq_false_of_other hpre
        (q := pathSegments "/api/attendance") (by decide) (by decide)
      have h3 := segs_isPrefixOf_eq_false_of_other hpre
        (q := pathSegments "/api/memorization") (by decide) (by decide)
      have h4 := segs_isPrefixOf_eq_false_of_other hpre
        (q := pathSegments "/api/lessons") (by decide) (by decide)
      simp [dispatch, apiMounts, blueprintRegistrations, List.find?, h1, h2, h3, h4, hpos]
    · have h1 := segs_isPrefixOf_eq_false_of_other hpre
        (q := pathSegments "/api/users") (by decide) (by decide)
      have h2 := segs_isPrefixOf_eq_false_of_other hpre
        (q := pathSegments "/api/attendance") (by decide) (by decide)
      have h3 := segs_isPrefixOf_eq_false_of_other hpre
        (q := pathSegments "/api/memorization") (by decide) (by decide)
      have h4 := segs_isPrefixOf_eq_false_of_other hpre
        (q := pathSegments "/api/lessons") (by decide) (by decide)
      have h5 := segs_isPrefixOf_eq_false_of_other hpre
        (q := pathSegments "/api/quizzes") (by decide) (by decide)
      simp [dispatch, apiMounts, blueprintRegistrations, List.find?, h1, h2, h3, h4, h5, hpos]
  exact ⟨hmount, by rw [hmount]; exact fun h => Dispatch.noConfusion h⟩

/-- Witness for C4: `/api/payments/checkout` is dispatched to the
handler group mounted at `/api/payments`, not to static serving. -/
theorem api_mount_dispatch_never_static_witness :
    dispatch "/api/payments/checkout" = Dispatch.handler "/api/payments" ∧
    dispatch "/api/payments/checkout" ≠ Dispatch.staticServe :=
  api_mount_dispatch_never_static "/api/payments" "/api/payments/checkout"
    (by decide) (by decide)

/-- C6: in the module's top-level execution, schema creation runs
exactly once, after the persistence binding is initialized and — when
it succeeds — before the application begins accepting requests; when
it fails, the trace never contains the accepting step and the process
never begins serving. -/
theorem create_all_once_then_serve (b : Bool) :
    (moduleStartup b).1.count StartupEvent.createAllTables = 1 ∧
    (moduleStartup b).1.indexOf StartupEvent.initPersistence
      < (moduleStartup b).1.indexOf StartupEvent.createAllTables ∧
    (StartupEvent.acceptRequests ∈ (moduleStartup b).1 →
      (moduleStartup b).1.indexOf StartupEvent.createAllTables
        < (moduleStartup b).1.indexOf StartupEvent.acceptRequests) ∧
    (b = false →
      StartupEvent.acceptRequests ∉ (moduleStartup b).1 ∧ (moduleStartup b).2 = false) := by
  cases b <;> decide

/-- Witness for C6 at the failing outcome: schema creation still ran
exactly once, and the process never reached the accepting step. -/
theorem create_all_once_then_serve_witness :
    (moduleStartup false).1.count StartupEvent.createAllTables = 1 ∧
    StartupEvent.acceptRequests ∉ (moduleStartup false).1 ∧
    (moduleStartup false).2 = false :=
  ⟨(create_all_once_then_serve false).1,
   ((create_all_once_then_serve false).2.2.2 rfl).1,
   ((create_all_once_then_serve false).2.2.2 rfl).2⟩

/-- Witness for the amended C10 at the concrete all-absent snapshot. -/
theorem secret_key_default_of_absent_witness :
    SECRET_KEY emptyEnv = "a_very_secure_default_secret_key_for_dev_only" ∧
    SECRET_KEY emptyEnv ≠ "" :=
  secret_key_default_of_absent emptyEnv rfl
